import Mathlib

/-!
Verification development for the baseball-injuries enrichment pipeline.

Shallow embedding of the record-enrichment core:
* season metric calculators (`injuries_clean.py`),
* the identity resolver `get_player_id`,
* the window expander `compute_averages` with its per-cell reuse,
* the fill-missing pass (`fill_missing_data.py`).

Modelling conventions:
* pandas DataFrames of pitch-level Statcast events become `List Ev`;
* the Lahman register becomes `Option (List RegRow)` (the global
  `pitching_reg`, `None` when the CSV is absent);
* the external `pb.statcast_pitcher` call becomes a function
  `Fetch : ℤ → ℤ → Except String (List Ev)` taking the player id and
  season; an `Except.error` models a raised exception, `.ok []` an
  empty frame (the code treats `None` and empty frames alike);
* Python floats become `ℚ`; a missing scalar becomes `none`;
* Python `round(x, 2)` (round half to even) becomes `round2`.
-/

set_option linter.unusedVariables false

/-- Arithmetic mean of a list of rationals; `none` on the empty list
(mirrors pandas `.mean()` returning NaN, which the code treats as
missing). -/
def listMean (l : List ℚ) : Option ℚ :=
  if l.isEmpty then none else some (l.sum / (l.length : ℚ))

/-- Round to the nearest integer, ties to even — the rounding used by
Python's built-in `round`. -/
def roundHalfEven (x : ℚ) : ℤ :=
  let f := ⌊x⌋
  let frac := x - (f : ℚ)
  if frac < 1/2 then f
  else if 1/2 < frac then f + 1
  else if f % 2 = 0 then f else f + 1

/-- Python `round(x, 2)`. -/
def round2 (x : ℚ) : ℚ := ((roundHalfEven (x * 100) : ℤ) : ℚ) / 100

/-- One pitch-level event row from the tracking (Statcast) data source.
Fields are the columns the calculators read; `release_speed` and
`release_spin_rate` are nullable per-pitch measurements. -/
structure Ev where
  game_pk : ℤ
  game_type : String
  pitch_type : String
  release_speed : Option ℚ
  release_spin_rate : Option ℚ
  inning : ℤ
deriving DecidableEq

/-- One row of the Lahman `Pitching.csv` register. -/
structure RegRow where
  playerID : String
  yearID : ℤ
  G : ℤ
  GS : ℤ
  SV : ℤ
  IPouts : ℤ
  BFP : ℤ
deriving DecidableEq

/-- The external tracking data source: `fetch pid season` models
`pb.statcast_pitcher(f'{season}-01-01', f'{season}-12-31', pid)`;
`Except.error` models a raised exception. -/
abbrev Fetch := ℤ → ℤ → Except String (List Ev)

/-- Rows of `pitching_reg` matching `(playerID == lahman_id) & (yearID == season)`. -/
def regFilter (reg : List RegRow) (lid : String) (season : ℤ) : List RegRow :=
  reg.filter (fun r => r.playerID = lid ∧ r.yearID = season)

/-- `calculate_avg_pitches_playoff` from `injuries_clean.py`: mean
pitches per game over games of type D/L/W; the whole body is inside
`try/except`, so a fetch error becomes `none`. -/
def calculate_avg_pitches_playoff (fetch : Fetch) (pid : ℤ) (lid : Option String)
    (season : ℤ) : Option ℚ :=
  if season < 2015 then none
  else
    match fetch pid season with
    | .error _ => none
    | .ok data =>
      if data.isEmpty then none
      else
        let playoffs := data.filter (fun e => e.game_type ∈ ["D", "L", "W"])
        if playoffs.isEmpty then none
        else
          listMean ((playoffs.map (·.game_pk)).dedup.map
            (fun g => ((playoffs.filter (·.game_pk = g)).length : ℚ)))

/-- The `season >= 2015` tracking branch of `calculate_avg_pitches_regular`.
There is no `try/except` in that function, so the fetch error
propagates (hence the `Except` result type). -/
def regularPitchesTracking (fetch : Fetch) (pid : ℤ) (season : ℤ) :
    Except String (Option ℚ) := do
  let data ← fetch pid season
  if data.isEmpty then return none
  else
    let regular := data.filter (fun e => e.game_type = "R")
    if regular.isEmpty then return none
    else
      return listMean ((regular.map (·.game_pk)).dedup.map
        (fun g => ((regular.filter (·.game_pk = g)).length : ℚ)))

/-- `calculate_avg_pitches_regular` from `injuries_clean.py`: register
estimate `(IPouts + BFP) / G` for `season < 2015` when the register and
the Lahman id are available, Statcast mean pitches per regular-season
game for `season >= 2015`, `none` otherwise. No exception guard. -/
def calculate_avg_pitches_regular (pitching_reg : Option (List RegRow)) (fetch : Fetch)
    (pid : ℤ) (lid : Option String) (season : ℤ) : Except String (Option ℚ) :=
  match pitching_reg, lid with
  | some reg, some l =>
    if season < 2015 then
      let player_reg := regFilter reg l season
      if ¬ player_reg.isEmpty then
        let total_ipouts := (player_reg.map (·.IPouts)).sum
        let total_bf := (player_reg.map (·.BFP)).sum
        let total_games := (player_reg.map (·.G)).sum
        if total_games > 0 then
          .ok (some (((total_ipouts + total_bf : ℤ) : ℚ) / (total_games : ℚ)))
        else .ok none
      else .ok none
    else if 2015 ≤ season then regularPitchesTracking fetch pid season
    else .ok none
  | _, _ =>
    if season < 2015 then .ok none
    else if 2015 ≤ season then regularPitchesTracking fetch pid season
    else .ok none

/-- `calculate_avg_spin_rate`: mean of non-null `release_spin_rate`
over the whole fetched year (no game-type filter in the source);
guarded by `try/except`. -/
def calculate_avg_spin_rate (fetch : Fetch) (pid : ℤ) (season : ℤ) : Option ℚ :=
  if season < 2015 then none
  else
    match fetch pid season with
    | .error _ => none
    | .ok data =>
      if data.isEmpty then none
      else
        let spin_data := data.filterMap (·.release_spin_rate)
        if spin_data.isEmpty then none else listMean spin_data

/-- `calculate_avg_pitch_velocity`: mean of non-null `release_speed`
over regular-season rows; guarded by `try/except`. -/
def calculate_avg_pitch_velocity (fetch : Fetch) (pid : ℤ) (season : ℤ) : Option ℚ :=
  if season < 2015 then none
  else
    match fetch pid season with
    | .error _ => none
    | .ok data =>
      if data.isEmpty then none
      else
        let regular_season := data.filter (fun e => e.game_type = "R")
        if regular_season.isEmpty then none
        else
          let velocity_data := regular_season.filterMap (·.release_speed)
          if velocity_data.isEmpty then none else listMean velocity_data

/-- `calculate_avg_velocity_playoff`: mean of non-null `release_speed`
over games of type D/L/W; guarded by `try/except`. -/
def calculate_avg_velocity_playoff (fetch : Fetch) (pid : ℤ) (season : ℤ) : Option ℚ :=
  if season < 2015 then none
  else
    match fetch pid season with
    | .error _ => none
    | .ok data =>
      if data.isEmpty then none
      else
        let playoffs := data.filter (fun e => e.game_type ∈ ["D", "L", "W"])
        if playoffs.isEmpty then none
        else
          let velocity_data := playoffs.filterMap (·.release_speed)
          if velocity_data.isEmpty then none else listMean velocity_data

/-- A game counts as started when the subject's earliest recorded
inning in that game is 1 (`game_data['inning'].min() == 1`). -/
def startedGames (regular : List Ev) : List ℤ :=
  ((regular.map (·.game_pk)).dedup).filter
    (fun g => ((regular.filter (·.game_pk = g)).map (·.inning)).min? = some 1)

/-- The `season >= 2015` Statcast branch of `calculate_games_started`
(inside `try/except`). -/
def gsTracking (fetch : Fetch) (pid : ℤ) (season : ℤ) : Option ℤ :=
  if 2015 ≤ season then
    match fetch pid season with
    | .error _ => none
    | .ok data =>
      if data.isEmpty then none
      else
        let regular_season := data.filter (fun e => e.game_type = "R")
        if regular_season.isEmpty then none
        else
          let games_started := (startedGames regular_season).length
          some (if (games_started : ℤ) > 0 then (games_started : ℤ) else 0)
  else none

/-- `calculate_games_started`: the register is consulted first for any
season; the Statcast count is the fallback for `season >= 2015`. -/
def calculate_games_started (pitching_reg : Option (List RegRow)) (fetch : Fetch)
    (pid : ℤ) (lid : Option String) (season : ℤ) : Option ℤ :=
  match pitching_reg, lid with
  | some reg, some l =>
    let player_reg := regFilter reg l season
    if ¬ player_reg.isEmpty then
      let gs := (player_reg.map (·.GS)).sum
      some (if gs > 0 then gs else 0)
    else gsTracking fetch pid season
  | _, _ => gsTracking fetch pid season

/-- `calculate_saves`: register-sourced only; `none` whenever the
register, the Lahman id, or the matching row is absent. -/
def calculate_saves (pitching_reg : Option (List RegRow)) (pid : ℤ)
    (lid : Option String) (season : ℤ) : Option ℤ :=
  match pitching_reg, lid with
  | some reg, some l =>
    let player_reg := regFilter reg l season
    if ¬ player_reg.isEmpty then
      let sv := (player_reg.map (·.SV)).sum
      some (if sv > 0 then sv else 0)
    else none
  | _, _ => none

/-- The `season >= 2015` Statcast branch of `calculate_relief_appearances`
(inside `try/except`): distinct regular-season games minus started games. -/
def reliefTracking (fetch : Fetch) (pid : ℤ) (season : ℤ) : Option ℤ :=
  if 2015 ≤ season then
    match fetch pid season with
    | .error _ => none
    | .ok data =>
      if data.isEmpty then none
      else
        let regular_season := data.filter (fun e => e.game_type = "R")
        if regular_season.isEmpty then none
        else
          let total_games := ((regular_season.map (·.game_pk)).dedup).length
          let games_started := (startedGames regular_season).length
          let relief := (total_games : ℤ) - (games_started : ℤ)
          some (if relief > 0 then relief else 0)
  else none

/-- `calculate_relief_appearances`: register `G - GS` first for any
season; Statcast fallback for `season >= 2015`. -/
def calculate_relief_appearances (pitching_reg : Option (List RegRow)) (fetch : Fetch)
    (pid : ℤ) (lid : Option String) (season : ℤ) : Option ℤ :=
  match pitching_reg, lid with
  | some reg, some l =>
    let player_reg := regFilter reg l season
    if ¬ player_reg.isEmpty then
      let g := (player_reg.map (·.G)).sum
      let gs := (player_reg.map (·.GS)).sum
      let relief := g - gs
      some (if relief > 0 then relief else 0)
    else reliefTracking fetch pid season
  | _, _ => reliefTracking fetch pid season

/-- The six tracked pitch-type codes. -/
def pitch_types : List String := ["FF", "SI", "SL", "CU", "CH", "FC"]

/-- `calculate_pitch_mix`: for each of the six codes, the share of
regular-season rows carrying that code, `round(·, 2)`-ed; a code with
zero occurrences maps to `0.0`. Returned as the association list the
Python dict amounts to; guarded by `try/except`. -/
def calculate_pitch_mix (fetch : Fetch) (pid : ℤ) (season : ℤ) :
    Option (List (String × ℚ)) :=
  if season < 2015 then none
  else
    match fetch pid season with
    | .error _ => none
    | .ok data =>
      if data.isEmpty then none
      else
        let regular_season := data.filter (fun e => e.game_type = "R")
        if regular_season.isEmpty then none
        else
          let total_pitches := regular_season.length
          if total_pitches = 0 then none
          else
            some (pitch_types.map (fun t =>
              let cnt := (regular_season.filter (fun e => e.pitch_type = t)).length
              (t, if 0 < cnt then round2 ((cnt : ℚ) / (total_pitches : ℚ) * 100) else 0)))

/-
Identity resolver (`get_player_id` in `injuries_clean.py`, same logic in
`lookup_player_ids.py`). Python string primitives are re-implemented on
`List Char` so every definition reduces in the kernel:
`splitWords` is `str.split()`, `replaceAll s c r` is `s.replace(c, r)`
for a one-character pattern, `joinWith` is `sep.join`.
-/

/-- Python `str.split()`: split on spaces, dropping empty pieces. -/
def splitWords (s : String) : List String :=
  ((s.data.foldr
      (fun c acc =>
        if c = ' ' then [] :: acc
        else (c :: acc.headD []) :: acc.tail)
      [[]]).filter (fun w => ¬ w.isEmpty)).map (fun w => ⟨w⟩)

/-- Python `s.replace(c, r)` for a single-character pattern `c`. -/
def replaceAll (s : String) (c : Char) (r : String) : String :=
  ⟨(s.data.map (fun ch => if ch = c then r.data else [ch])).flatten⟩

/-- Python `sep.join(l)` for a nonempty list, used for
`' '.join(name_parts[:-1])`. -/
def joinWith (sep : String) : List String → String
  | [] => ""
  | x :: xs => xs.foldl (fun acc w => acc ++ sep ++ w) x

/-- The static orthographic-correction table of `get_player_id`. -/
def name_corrections : List (String × String) :=
  [("Adrian Morejon", "Adrián Morejón"),
   ("A.J. Puk", "A. J. Puk"),
   ("Angel Perdomo", "Ángel Perdomo"),
   ("Barret Loux", "Barrett Loux"),
   ("Chi Chi Gonzalez", "Chi-Chi González"),
   ("Darien Núñez", "Darién Núñez"),
   ("Hyun-jin Ryu", "Hyun Jin Ryu"),
   ("Jose Alvarez", "José Alvarez"),
   ("Michel Baez", "Michel Báez"),
   ("Sandy Alcantara", "Sandy Alcántara"),
   ("Vladimir Gutierrez", "Vladimir Gutiérrez")]

/-- The manual-override table of `get_player_id`, keyed by the original,
uncorrected input name. -/
def manual_ids : List (String × ℤ) :=
  [("Barret Loux", 621344),
   ("Brady Aiken", 592094),
   ("Bryce Montes de Oca", 650489),
   ("Chi Chi Gonzalez", 592346),
   ("Jae Seo", 400134),
   ("Jay Groome", 668941),
   ("Jorge de la Rosa", 407822),
   ("Jose Alvarez", 501625),
   ("José De León", 605894),
   ("Lance McCullers Jr.", 621121),
   ("Luis F. Ortiz", 642528),
   ("Matt Bowman", 621199),
   ("Matthew Boyd", 571510),
   ("Nate Adcock", 502264),
   ("Pedro Borbón Jr.", 150337),
   ("Rubby De La Rosa", 523989),
   ("Sam Carlson", 676664),
   ("Ty Hensley", 669211),
   ("Tyler Kolek", 681217)]

/-- One candidate row returned by `pb.playerid_lookup`. -/
structure Candidate where
  key_mlbam : ℤ
  key_bbref : String
deriving DecidableEq

/-- The external identity-lookup source:
`lookupFn last_name first_name` models `pb.playerid_lookup(last, first)`. -/
abbrev LookupFn := String → String → List Candidate

/-- `get_player_id` from `injuries_clean.py`, line for line. Note the
source's `return None` at the end of the `if lookup.empty:` block sits
at the *outer* indentation level, so when the primary lookup is empty
the function returns `none` (or a manual override) even when one of the
two punctuation-stripped retries found candidates. -/
def get_player_id (lookupFn : LookupFn) (name : String) : Option (ℤ × Option String) :=
  let original_name := name
  let name :=
    match name_corrections.lookup name with
    | some corrected => corrected
    | none => name
  let name_parts := splitWords name
  if name_parts.length < 2 then none
  else
    let first := joinWith " " name_parts.dropLast
    let last := name_parts.getLast!
    match lookupFn last first with
    | c :: _ => some (c.key_mlbam, some c.key_bbref)
    | [] =>
      let first_no_dot := replaceAll first '.' ""
      let lookup2 := lookupFn last first_no_dot
      let lookup3 :=
        if lookup2.isEmpty then lookupFn last (replaceAll first '.' ". ")
        else lookup2
      if lookup3.isEmpty then
        match manual_ids.lookup original_name with
        | some mid => some (mid, none)
        | none => none
      else none

/-
Fill-missing pass (`fill_missing_data.py`). A cell of the persisted
table is an `Option ℚ`; each fill function returns the new cell value
together with the `True`/`False` "filled" flag the source returns.
-/

/-- `get_statcast_data_robust`: full-year query, then the narrower
Mar 1–Nov 1 window; one `try/except` spans both, so the first error
aborts both. `fetchNarrow` models the narrower-window query. -/
def get_statcast_data_robust (fetchFull fetchNarrow : Fetch) (pid : Option ℤ)
    (year : ℤ) : Option (List Ev) :=
  match pid with
  | none => none
  | some p =>
    if year < 2015 then none
    else
      match fetchFull p year with
      | .error _ => none
      | .ok d =>
        if ¬ d.isEmpty then some d
        else
          match fetchNarrow p year with
          | .error _ => none
          | .ok d2 => if ¬ d2.isEmpty then some d2 else none

/-- `fill_spin_rate`: skip when the cell is already non-missing;
otherwise mean of `release_spin_rate` over regular-season rows (pandas
`.mean()` skips nulls; an all-null column yields NaN and nothing is
written). -/
def fill_spin_rate (fetchFull fetchNarrow : Fetch) (cell : Option ℚ)
    (pid : Option ℤ) (year : ℤ) : Option ℚ × Bool :=
  if cell.isSome then (cell, false)
  else
    match get_statcast_data_robust fetchFull fetchNarrow pid year with
    | none => (cell, false)
    | some data =>
      let regular_season := data.filter (fun e => e.game_type = "R")
      if regular_season.isEmpty then (cell, false)
      else
        match listMean (regular_season.filterMap (·.release_spin_rate)) with
        | some avg => (some avg, true)
        | none => (cell, false)

/-- `fill_velocity`: like `fill_spin_rate` but over `release_speed`,
filtering game types D/F/L/W when `playoff` is set (note the extra
wild-card code "F", absent from `calculate_avg_velocity_playoff`),
else regular season. -/
def fill_velocity (fetchFull fetchNarrow : Fetch) (cell : Option ℚ)
    (pid : Option ℤ) (year : ℤ) (playoff : Bool) : Option ℚ × Bool :=
  if cell.isSome then (cell, false)
  else
    match get_statcast_data_robust fetchFull fetchNarrow pid year with
    | none => (cell, false)
    | some data =>
      let filtered :=
        if playoff then data.filter (fun e => e.game_type ∈ ["D", "F", "L", "W"])
        else data.filter (fun e => e.game_type = "R")
      if filtered.isEmpty then (cell, false)
      else
        match listMean (filtered.filterMap (·.release_speed)) with
        | some avg => (some avg, true)
        | none => (cell, false)

/-
Window expander: `compute_averages` inside `main` of `injuries_clean.py`,
with its per-cell `get_or_compute` reuse, and the orchestrator's merge
of the returned values back into the row.

A row of the persisted wide table is modelled as its metric cells,
`Row := String → Option ℚ` (column name to stored value; `none` is a
missing cell). `compute_averages` returns the list of
(column, value) assignments it hands back to the orchestrator, paired
with the number of metric-calculator invocations it performed, and is
in `Except` because `calculate_avg_pitches_regular` is unguarded.
-/

/-- Metric cells of one row of the persisted table. -/
abbrev Row := String → Option ℚ

/-- The eight relative periods with their season offsets from the
injury year. -/
def periods : List (String × ℤ) :=
  [("t_minus_4", -4), ("t_minus_3", -3), ("t_minus_2", -2), ("t_minus_1", -1),
   ("t_plus_1", 1), ("t_plus_2", 2), ("t_plus_3", 3), ("t_plus_4", 4)]

/-- Column name and absolute season for each period of a
`<base><period>`-named metric family. -/
def stdCols (base : String) (injury_year : ℤ) : List (String × ℤ) :=
  periods.map (fun p => (base ++ p.1, injury_year + p.2))

/-- The `avg_pitches_*` playoff family uses the legacy names
`avg_pitches_before` / `avg_pitches_after` for T−1 / T+1. -/
def avgPitchPlayoffCols (injury_year : ℤ) : List (String × ℤ) :=
  [("avg_pitches_t_minus_4", injury_year - 4),
   ("avg_pitches_t_minus_3", injury_year - 3),
   ("avg_pitches_t_minus_2", injury_year - 2),
   ("avg_pitches_before", injury_year - 1),
   ("avg_pitches_after", injury_year + 1),
   ("avg_pitches_t_plus_2", injury_year + 2),
   ("avg_pitches_t_plus_3", injury_year + 3),
   ("avg_pitches_t_plus_4", injury_year + 4)]

/-- `get_or_compute` from `compute_averages`: reuse a non-missing
stored cell, otherwise invoke the calculator. The second component
counts calculator invocations (0 on reuse, 1 on compute). -/
def get_or_compute (row : Row) (col : String) (computeFn : Unit → Option ℚ) :
    Option ℚ × ℕ :=
  match row col with
  | some v => (some v, 0)
  | none => (computeFn (), 1)

/-- One metric family's eight cells via `get_or_compute`: the list of
(column, value) assignments and the total calculator invocations. -/
def familyCells (row : Row) (calcFn : ℤ → Option ℚ) :
    List (String × ℤ) → List (String × Option ℚ) × ℕ
  | [] => ([], 0)
  | (c, s) :: rest =>
    let r := get_or_compute row c (fun _ => calcFn s)
    let restCells := familyCells row calcFn rest
    ((c, r.1) :: restCells.1, r.2 + restCells.2)

/-- `familyCells` for the one calculator whose exceptions propagate. -/
def familyCellsE (row : Row) (calcFn : ℤ → Except String (Option ℚ)) :
    List (String × ℤ) → Except String (List (String × Option ℚ) × ℕ)
  | [] => .ok ([], 0)
  | (c, s) :: rest =>
    match row c with
    | some v => do
      let restCells ← familyCellsE row calcFn rest
      .ok ((c, some v) :: restCells.1, restCells.2)
    | none => do
      let v ← calcFn s
      let restCells ← familyCellsE row calcFn rest
      .ok ((c, v) :: restCells.1, 1 + restCells.2)

/-- Pitch-mix cell column names, `f'{pitch_type.lower()}_pct_{period}'`. -/
def mixColName (t p : String) : String := ⟨t.data.map Char.toLower⟩ ++ "_pct_" ++ p

/-- `get_pitch_mix_value` from `compute_averages`: reuse a non-missing
stored cell; otherwise read the pitch type out of the already-computed
mix dict (`dict.get(pitch_type, 0.0)`), `none` when the whole mix is
undefined. -/
def get_pitch_mix_value (row : Row) (mix : Option (List (String × ℚ)))
    (t p : String) : Option ℚ :=
  match row (mixColName t p) with
  | some v => some v
  | none =>
    match mix with
    | none => none
    | some d => some ((d.lookup t).getD 0)

/-- The 48 pitch-mix cells (six types × eight periods), reading each
period's mix dict out of the list of the eight unconditional
`calculate_pitch_mix` results. -/
def mixCells (row : Row) (mixes : List (String × Option (List (String × ℚ)))) :
    List (String × Option ℚ) :=
  (pitch_types.map (fun t => periods.map (fun p =>
    (mixColName t p.1, get_pitch_mix_value row ((mixes.lookup p.1).join) t p.1)))).flatten

/-- `compute_averages`: the full set of cell assignments for one
subject, reusing stored cells via `get_or_compute` for the eight
non-pitch-mix families, and invoking `calculate_pitch_mix`
unconditionally for all eight periods before the per-cell
`get_pitch_mix_value` reuse. Returns the assignments plus the number
of calculator invocations. -/
def compute_averages (pitching_reg : Option (List RegRow)) (fetch : Fetch)
    (pid : ℤ) (lid : Option String) (injury_year : ℤ) (row : Row) :
    Except String (List (String × Option ℚ) × ℕ) := do
  let avgPlayoff := familyCells row
    (fun s => calculate_avg_pitches_playoff fetch pid lid s) (avgPitchPlayoffCols injury_year)
  let avgRegular ← familyCellsE row
    (fun s => calculate_avg_pitches_regular pitching_reg fetch pid lid s)
    (stdCols "avg_pitches_regular_" injury_year)
  let spin := familyCells row
    (fun s => calculate_avg_spin_rate fetch pid s) (stdCols "avg_spin_rate_" injury_year)
  let velocity := familyCells row
    (fun s => calculate_avg_pitch_velocity fetch pid s) (stdCols "avg_velocity_" injury_year)
  let velocityPlayoff := familyCells row
    (fun s => calculate_avg_velocity_playoff fetch pid s)
    (stdCols "avg_velocity_playoff_" injury_year)
  let gs := familyCells row
    (fun s => (calculate_games_started pitching_reg fetch pid lid s).map (fun z => (z : ℚ)))
    (stdCols "gs_" injury_year)
  let sv := familyCells row
    (fun s => (calculate_saves pitching_reg pid lid s).map (fun z => (z : ℚ)))
    (stdCols "sv_" injury_year)
  let relief := familyCells row
    (fun s => (calculate_relief_appearances pitching_reg fetch pid lid s).map (fun z => (z : ℚ)))
    (stdCols "relief_app_" injury_year)
  let mixes := periods.map (fun p => (p.1, calculate_pitch_mix fetch pid (injury_year + p.2)))
  let mix := mixCells row mixes
  .ok (avgPlayoff.1 ++ avgRegular.1 ++ spin.1 ++ velocity.1 ++ velocityPlayoff.1 ++
         gs.1 ++ sv.1 ++ relief.1 ++ mix,
       avgPlayoff.2 + avgRegular.2 + spin.2 + velocity.2 + velocityPlayoff.2 +
         gs.2 + sv.2 + relief.2 + mixes.length)

/-- The orchestrator's merge: assign every returned (column, value)
pair into the row (`cleaned_data.at[idx, col] = value`). -/
def applyUpdates (row : Row) (ups : List (String × Option ℚ)) : Row :=
  fun c =>
    match ups.lookup c with
    | some v => v
    | none => row c

/-- Every metric column name of the wide table (the 64 `get_or_compute`
cells and the 48 pitch-mix cells). -/
def allMetricColNames : List String :=
  (avgPitchPlayoffCols 0).map (·.1) ++
  (stdCols "avg_pitches_regular_" 0).map (·.1) ++
  (stdCols "avg_spin_rate_" 0).map (·.1) ++
  (stdCols "avg_velocity_" 0).map (·.1) ++
  (stdCols "avg_velocity_playoff_" 0).map (·.1) ++
  (stdCols "gs_" 0).map (·.1) ++
  (stdCols "sv_" 0).map (·.1) ++
  (stdCols "relief_app_" 0).map (·.1) ++
  (pitch_types.map (fun t => periods.map (fun p => mixColName t p.1))).flatten

/-
Concrete fixtures used by witnesses and counterexamples.
-/

/-- An identity source that is empty for the primary query
`("Puk", "A. J.")` but has a candidate for the punctuation-stripped
retry `("Puk", "A J")` — the "A.J. Puk" scenario. -/
def exLookupPuk : LookupFn := fun last first =>
  if last = "Puk" ∧ first = "A J" then [⟨640462, "pukaj01"⟩] else []

/-- A register row: 40 games, 12 starts, 5 saves in 2016. -/
def sampleRegRow : RegRow := ⟨"smithjo01", 2016, 40, 12, 5, 0, 0⟩

/-- Seven regular-season rows whose pitch types split 2/1/1/1/1/1
across the six tracked codes. -/
def mix7 : List Ev :=
  [⟨1, "R", "FF", none, none, 1⟩, ⟨1, "R", "FF", none, none, 1⟩,
   ⟨1, "R", "SI", none, none, 1⟩, ⟨1, "R", "SL", none, none, 1⟩,
   ⟨1, "R", "CU", none, none, 1⟩, ⟨1, "R", "CH", none, none, 1⟩,
   ⟨1, "R", "FC", none, none, 1⟩]

/-- A division-series pitch at 90 mph and a wild-card pitch at 100 mph. -/
def c6Data : List Ev :=
  [⟨1, "D", "FF", some 90, none, 1⟩, ⟨2, "F", "FF", some 100, none, 1⟩]

/-- A single regular-season row (no playoff rows at all). -/
def oneRegRow : List Ev := [⟨1, "R", "FF", some 92, some 2200, 1⟩]

/-- C1: the claim says that when the primary identity lookup is empty
and the punctuation-stripped retry returns candidates, `get_player_id`
returns the first candidate's IDs. The code does not: the
`return None` closing the `if lookup.empty:` block is indented at the
outer level, so the fallback result is discarded. At the "A.J. Puk"
input the primary query is empty, the retry query is non-empty, and
`get_player_id` still returns `none`. -/
theorem c1_fallback_discarded_eval :
    exLookupPuk "Puk" "A. J." = [] ∧
    exLookupPuk "Puk" "A J" = [⟨640462, "pukaj01"⟩] ∧
    get_player_id exLookupPuk "A.J. Puk" = none := by
  refine ⟨by decide, by decide, by decide⟩

/-- C2: the claim says every season-metric calculator converts
exceptions from the external data-source call into `none`. All
calculators except `calculate_avg_pitches_regular` are wrapped in
`try/except`; that one has no guard, so on its `season >= 2015` path a
fetch error propagates to the caller, while e.g. the spin-rate and
playoff-pitches calculators convert the same error to `none`. -/
theorem c2_unguarded_propagation_eval :
    calculate_avg_pitches_regular none (fun _ _ => Except.error "network error")
      660271 (some "puka01") 2016 = Except.error "network error" ∧
    calculate_avg_spin_rate (fun _ _ => Except.error "network error") 660271 2016 = none ∧
    calculate_avg_pitches_playoff (fun _ _ => Except.error "network error")
      660271 (some "puka01") 2016 = none := by
  refine ⟨rfl, rfl, rfl⟩

/-- The clamp `if x > 0 then x else 0` is never negative. -/
theorem clamp_nonneg (x : ℤ) : 0 ≤ if x > 0 then x else 0 := by
  split <;> omega

/-- `gsTracking` only returns clamped counts. -/
theorem gsTracking_nonneg (fetch : Fetch) (pid season : ℤ) (n : ℤ)
    (h : gsTracking fetch pid season = some n) : 0 ≤ n := by
  unfold gsTracking at h
  split at h
  · split at h
    · exact absurd h (by simp)
    · split at h
      · exact absurd h (by simp)
      · dsimp only at h
        split at h
        · exact absurd h (by simp)
        · rw [Option.some_inj] at h
          subst h
          exact clamp_nonneg _
  · exact absurd h (by simp)

/-- `reliefTracking` only returns clamped counts. -/
theorem reliefTracking_nonneg (fetch : Fetch) (pid season : ℤ) (n : ℤ)
    (h : reliefTracking fetch pid season = some n) : 0 ≤ n := by
  unfold reliefTracking at h
  split at h
  · split at h
    · exact absurd h (by simp)
    · split at h
      · exact absurd h (by simp)
      · dsimp only at h
        split at h
        · exact absurd h (by simp)
        · rw [Option.some_inj] at h
          subst h
          exact clamp_nonneg _
  · exact absurd h (by simp)

/-- C10: the counting metrics `calculate_games_started`,
`calculate_saves` and `calculate_relief_appearances` never return a
negative value — every total is clamped by `if x > 0 then x else 0`
(including the register `G - GS` difference), and all other outcomes
are `none`. -/
theorem c10_nonnegative (pitching_reg : Option (List RegRow)) (fetch : Fetch)
    (pid : ℤ) (lid : Option String) (season : ℤ) :
    (∀ n : ℤ, calculate_games_started pitching_reg fetch pid lid season = some n → 0 ≤ n) ∧
    (∀ n : ℤ, calculate_saves pitching_reg pid lid season = some n → 0 ≤ n) ∧
    (∀ n : ℤ, calculate_relief_appearances pitching_reg fetch pid lid season = some n → 0 ≤ n) := by
  refine ⟨?_, ?_, ?_⟩ <;> intro n h
  · unfold calculate_games_started at h
    split at h
    · dsimp only at h
      split at h
      · rw [Option.some_inj] at h
        subst h
        exact clamp_nonneg _
      · exact gsTracking_nonneg _ _ _ _ h
    · exact gsTracking_nonneg _ _ _ _ h
  · unfold calculate_saves at h
    split at h
    · dsimp only at h
      split at h
      · rw [Option.some_inj] at h
        subst h
        exact clamp_nonneg _
      · exact absurd h (by simp)
    · exact absurd h (by simp)
  · unfold calculate_relief_appearances at h
    split at h
    · dsimp only at h
      split at h
      · rw [Option.some_inj] at h
        subst h
        exact clamp_nonneg _
      · exact reliefTracking_nonneg _ _ _ _ h
    · exact reliefTracking_nonneg _ _ _ _ h

/-- Witness for C10 at a concrete register row with 5 saves. -/
theorem c10_nonnegative_witness :
    calculate_saves (some [sampleRegRow]) 100 (some "smithjo01") 2016 = some 5 ∧ (0 : ℤ) ≤ 5 :=
  ⟨by decide,
   (c10_nonnegative (some [sampleRegRow]) (fun _ _ => Except.ok []) 100
      (some "smithjo01") 2016).2.1 5 (by decide)⟩

/-- C7: monotonic fill — a cell whose stored value is non-missing is
never altered: `get_or_compute` reuses it without invoking the
calculator, `get_pitch_mix_value` returns it, and `fill_spin_rate`
skips the cell. -/
theorem c7_monotonic_fill :
    (∀ (row : Row) (col : String) (f : Unit → Option ℚ),
        (row col).isSome → get_or_compute row col f = (row col, 0)) ∧
    (∀ (row : Row) (mix : Option (List (String × ℚ))) (t p : String),
        (row (mixColName t p)).isSome →
          get_pitch_mix_value row mix t p = row (mixColName t p)) ∧
    (∀ (fetchFull fetchNarrow : Fetch) (cell : Option ℚ) (pid : Option ℤ) (year : ℤ),
        cell.isSome →
          fill_spin_rate fetchFull fetchNarrow cell pid year = (cell, false)) := by
  refine ⟨?_, ?_, ?_⟩
  · intro row col f h
    obtain ⟨v, hv⟩ := Option.isSome_iff_exists.mp h
    simp [get_or_compute, hv]
  · intro row mix t p h
    obtain ⟨v, hv⟩ := Option.isSome_iff_exists.mp h
    simp [get_pitch_mix_value, hv]
  · intro fetchFull fetchNarrow cell pid year h
    simp [fill_spin_rate, h]

/-- Witness for C7 on concrete populated cells. -/
theorem c7_monotonic_fill_witness :
    get_or_compute (fun _ => some 3) "gs_t_minus_1" (fun _ => none) = (some 3, 0) ∧
    get_pitch_mix_value (fun _ => some 3) none "FF" "t_minus_1" = some 3 ∧
    fill_spin_rate (fun _ _ => Except.ok []) (fun _ _ => Except.ok [])
      (some 2) (some 1) 2016 = (some 2, false) :=
  ⟨c7_monotonic_fill.1 (fun _ => some 3) "gs_t_minus_1" (fun _ => none) rfl,
   c7_monotonic_fill.2.1 (fun _ => some 3) none "FF" "t_minus_1" rfl,
   c7_monotonic_fill.2.2 (fun _ _ => Except.ok []) (fun _ _ => Except.ok [])
     (some 2) (some 1) 2016 rfl⟩

/-- C8: when the fetched tracking data has no rows of playoff game
types D/L/W, `calculate_avg_pitches_playoff` is `none` (undefined),
never 0. -/
theorem c8_playoff_undefined (fetch : Fetch) (pid : ℤ) (lid : Option String)
    (season : ℤ) (data : List Ev) (hf : fetch pid season = Except.ok data)
    (h : ∀ e ∈ data, e.game_type ∉ (["D", "L", "W"] : List String)) :
    calculate_avg_pitches_playoff fetch pid lid season = none := by
  have hfil : data.filter (fun e => e.game_type ∈ (["D", "L", "W"] : List String)) = [] := by
    rw [List.filter_eq_nil_iff]
    intro e he
    simpa using h e he
  by_cases hs : season < 2015
  · unfold calculate_avg_pitches_playoff
    rw [if_pos hs]
  · unfold calculate_avg_pitches_playoff
    rw [if_neg hs, hf]
    dsimp only
    rw [hfil]
    simp only [List.isEmpty_nil, if_true, ite_self]

/-- Witness for C8: a season with only a regular-season row. -/
theorem c8_playoff_undefined_witness :
    calculate_avg_pitches_playoff (fun _ _ => Except.ok oneRegRow) 1 (some "x") 2016 = none :=
  c8_playoff_undefined (fun _ _ => Except.ok oneRegRow) 1 (some "x") 2016 oneRegRow
    rfl (by decide)

/-- C9: a name resolved only through the manual-override table gets the
override tracking ID paired with an unset register ID, and the
register-sourced saves metric is therefore undefined for any register
contents and season. -/
theorem c9_manual_override (lookupFn : LookupFn) (name : String) (mid : ℤ)
    (hempty : ∀ l f, lookupFn l f = [])
    (hman : manual_ids.lookup name = some mid)
    (hparts : 2 ≤ (splitWords (match name_corrections.lookup name with
                               | some corrected => corrected
                               | none => name)).length) :
    get_player_id lookupFn name = some (mid, none) ∧
    ∀ (pitching_reg : Option (List RegRow)) (pid season : ℤ),
      calculate_saves pitching_reg pid none season = none := by
  constructor
  · have h2 : ¬ (splitWords (match name_corrections.lookup name with
                             | some corrected => corrected
                             | none => name)).length < 2 := by omega
    simp only [get_player_id, hempty, h2, if_false, List.isEmpty_nil, if_true, hman]
  · intro pitching_reg pid season
    cases pitching_reg <;> rfl

/-- Witness for C9 at "Sam Carlson", a manual-override-only subject. -/
theorem c9_manual_override_witness :
    get_player_id (fun _ _ => []) "Sam Carlson" = some (676664, none) ∧
    calculate_saves (some [sampleRegRow]) 676664 none 2016 = none :=
  ⟨(c9_manual_override (fun _ _ => []) "Sam Carlson" 676664
      (fun _ _ => rfl) (by decide) (by decide)).1,
   (c9_manual_override (fun _ _ => []) "Sam Carlson" 676664
      (fun _ _ => rfl) (by decide) (by decide)).2 (some [sampleRegRow]) 676664 2016⟩

/-- C4 counterexample: at season 2016 (≥ 2015) the register IS
consulted. With a matching register row (12 starts, 5 saves) the
results come from the register — `calculate_games_started` returns 12
even though the tracking source would yield nothing — and removing the
register changes the results, so metric computation does not route
exclusively through the tracking path for seasons ≥ 2015. -/
theorem c4_register_consulted_counterexample :
    (2015 : ℤ) ≤ 2016 ∧
    calculate_games_started (some [sampleRegRow]) (fun _ _ => Except.ok [])
      100 (some "smithjo01") 2016 = some 12 ∧
    gsTracking (fun _ _ => Except.ok []) 100 2016 = none ∧
    calculate_saves (some [sampleRegRow]) 100 (some "smithjo01") 2016 = some 5 ∧
    calculate_saves none 100 (some "smithjo01") 2016 = none := by
  refine ⟨by norm_num, by decide, by decide, by decide, by decide⟩

/-- C4 as amended: for seasons ≥ 2015 the pitch-level regular-average
calculator never reads the register; games started and relief
appearances consult the register FIRST for any season and ignore the
tracking source whenever a matching register row exists; for seasons
< 2015 games started and relief appearances never touch the tracking
source (and saves takes no tracking source at all), while pitch mix
and playoff velocity return undefined without raising. -/
theorem c4_cutoff_routing_amended :
    (∀ (reg reg' : Option (List RegRow)) (fetch : Fetch) (pid : ℤ)
        (lid : Option String) (season : ℤ), 2015 ≤ season →
      calculate_avg_pitches_regular reg fetch pid lid season =
        calculate_avg_pitches_regular reg' fetch pid lid season) ∧
    (∀ (rs : List RegRow) (l : String) (fetch fetch' : Fetch) (pid season : ℤ),
        ¬ (regFilter rs l season).isEmpty →
      calculate_games_started (some rs) fetch pid (some l) season =
        calculate_games_started (some rs) fetch' pid (some l) season ∧
      calculate_relief_appearances (some rs) fetch pid (some l) season =
        calculate_relief_appearances (some rs) fetch' pid (some l) season) ∧
    (∀ (reg : Option (List RegRow)) (fetch fetch' : Fetch) (pid : ℤ)
        (lid : Option String) (season : ℤ), season < 2015 →
      calculate_games_started reg fetch pid lid season =
        calculate_games_started reg fetch' pid lid season ∧
      calculate_relief_appearances reg fetch pid lid season =
        calculate_relief_appearances reg fetch' pid lid season) ∧
    (∀ (fetch : Fetch) (pid season : ℤ), season < 2015 →
      calculate_pitch_mix fetch pid season = none ∧
      calculate_avg_velocity_playoff fetch pid season = none) := by
  refine ⟨?_, ?_, ?_, ?_⟩
  · intro reg reg' fetch pid lid season hs
    have hns : ¬ season < 2015 := by omega
    cases reg <;> cases reg' <;> cases lid <;>
      simp [calculate_avg_pitches_regular, hns, hs]
  · intro rs l fetch fetch' pid season hne
    constructor
    · unfold calculate_games_started
      dsimp only
      rw [if_pos hne, if_pos hne]
    · unfold calculate_relief_appearances
      dsimp only
      rw [if_pos hne, if_pos hne]
  · intro reg fetch fetch' pid lid season hs
    have hns : ¬ (2015 : ℤ) ≤ season := by omega
    constructor
    · cases reg <;> cases lid <;>
        simp [calculate_games_started, gsTracking, hns]
    · cases reg <;> cases lid <;>
        simp [calculate_relief_appearances, reliefTracking, hns]
  · intro fetch pid season hs
    exact ⟨by simp [calculate_pitch_mix, hs], by simp [calculate_avg_velocity_playoff, hs]⟩

/-- Witness for C4 (amended) at concrete inputs: register independence
of the ≥-2015 regular-average path, fetch independence of games
started when a register row matches and below the cutoff, and the
undefined below-cutoff pitch mix. -/
theorem c4_cutoff_routing_witness :
    calculate_avg_pitches_regular (some [sampleRegRow]) (fun _ _ => Except.ok [])
        1 (some "smithjo01") 2016 =
      calculate_avg_pitches_regular none (fun _ _ => Except.ok [])
        1 (some "smithjo01") 2016 ∧
    calculate_games_started (some [sampleRegRow]) (fun _ _ => Except.ok [])
        1 (some "smithjo01") 2016 =
      calculate_games_started (some [sampleRegRow]) (fun _ _ => Except.error "e")
        1 (some "smithjo01") 2016 ∧
    calculate_games_started (some [sampleRegRow]) (fun _ _ => Except.ok [])
        1 (some "other") 2010 =
      calculate_games_started (some [sampleRegRow]) (fun _ _ => Except.error "e")
        1 (some "other") 2010 ∧
    calculate_pitch_mix (fun _ _ => Except.ok []) 1 2014 = none :=
  ⟨c4_cutoff_routing_amended.1 (some [sampleRegRow]) none (fun _ _ => Except.ok [])
      1 (some "smithjo01") 2016 (by norm_num),
   (c4_cutoff_routing_amended.2.1 [sampleRegRow] "smithjo01" (fun _ _ => Except.ok [])
      (fun _ _ => Except.error "e") 1 2016 (by decide)).1,
   (c4_cutoff_routing_amended.2.2.1 (some [sampleRegRow]) (fun _ _ => Except.ok [])
      (fun _ _ => Except.error "e") 1 (some "other") 2010 (by norm_num)).1,
   (c4_cutoff_routing_amended.2.2.2 (fun _ _ => Except.ok []) 1 2014 (by norm_num)).1⟩

/-- C6 counterexample: the two implementations do NOT filter the same
playoff set. On a dataset with one division-series pitch at 90 and one
wild-card ("F") pitch at 100, `calculate_avg_velocity_playoff` (filter
D/L/W) averages 90 while `fill_velocity` with `playoff=True` (filter
D/F/L/W) averages 95. -/
theorem c6_playoff_filter_counterexample :
    calculate_avg_velocity_playoff (fun _ _ => Except.ok c6Data) 1 2016 = some 90 ∧
    (fill_velocity (fun _ _ => Except.ok c6Data) (fun _ _ => Except.ok [])
       none (some 1) 2016 true).1 = some 95 ∧
    (some (90 : ℚ) : Option ℚ) ≠ some 95 := by
  refine ⟨?_, ?_, by norm_num⟩
  · simp +decide [calculate_avg_velocity_playoff, listMean, c6Data, List.filterMap_cons]
  · simp +decide [fill_velocity, get_statcast_data_robust, listMean, c6Data,
      List.filterMap_cons]
    norm_num

/-- C6 as amended: `calculate_avg_velocity_playoff` filters game types
D/L/W while `fill_velocity` with `playoff=True` filters D/F/L/W (it
additionally includes wild-card games); on every non-empty event
dataset containing no wild-card ("F") rows the two compute equal
average values. -/
theorem c6_velocity_equiv_amended (fetch fetchFull fetchNarrow : Fetch)
    (pid season : ℤ) (data : List Ev) (hs : 2015 ≤ season)
    (hf : fetch pid season = Except.ok data)
    (hfull : fetchFull pid season = Except.ok data)
    (hdata : ¬ data.isEmpty)
    (hF : ∀ e ∈ data, e.game_type ≠ "F") :
    calculate_avg_velocity_playoff fetch pid season =
      (fill_velocity fetchFull fetchNarrow none (some pid) season true).1 := by
  have hns : ¬ season < 2015 := by omega
  have hfil : data.filter (fun e => e.game_type ∈ (["D", "F", "L", "W"] : List String)) =
      data.filter (fun e => e.game_type ∈ (["D", "L", "W"] : List String)) := by
    apply List.filter_congr
    intro e he
    rw [decide_eq_decide]
    have hne := hF e he
    simp only [List.mem_cons, List.not_mem_nil, or_false]
    constructor
    · rintro (h1 | h1 | h1 | h1) <;> tauto
    · rintro (h1 | h1 | h1) <;> tauto
  have hrobust : get_statcast_data_robust fetchFull fetchNarrow (some pid) season
      = some data := by
    unfold get_statcast_data_robust
    dsimp only
    rw [if_neg hns, hfull]
    dsimp only
    rw [if_pos hdata]
  have hmean : ∀ l : List ℚ, (if l.isEmpty then none else listMean l) = listMean l := by
    intro l
    by_cases hl : l.isEmpty
    · rw [if_pos hl]
      unfold listMean
      rw [if_pos hl]
    · rw [if_neg hl]
  have hleft : calculate_avg_velocity_playoff fetch pid season =
      listMean ((data.filter (fun e => e.game_type ∈ (["D", "L", "W"] : List String))).filterMap
        (·.release_speed)) := by
    unfold calculate_avg_velocity_playoff
    rw [if_neg hns, hf]
    dsimp only
    rw [if_neg hdata]
    by_cases hp : (data.filter (fun e => e.game_type ∈ (["D", "L", "W"] : List String))).isEmpty
    · rw [if_pos hp]
      rw [List.isEmpty_iff.mp hp]
      rfl
    · rw [if_neg hp]
      exact hmean _
  have hright : (fill_velocity fetchFull fetchNarrow none (some pid) season true).1 =
      listMean ((data.filter (fun e => e.game_type ∈ (["D", "L", "W"] : List String))).filterMap
        (·.release_speed)) := by
    unfold fill_velocity
    rw [if_neg (by simp : ¬ (none : Option ℚ).isSome = true), hrobust]
    dsimp only
    rw [if_pos rfl, hfil]
    by_cases hp : (data.filter (fun e => e.game_type ∈ (["D", "L", "W"] : List String))).isEmpty
    · rw [if_pos hp]
      rw [List.isEmpty_iff.mp hp]
      rfl
    · rw [if_neg hp]
      cases listMean ((data.filter
          (fun e => e.game_type ∈ (["D", "L", "W"] : List String))).filterMap
            (·.release_speed)) <;> rfl
  rw [hleft, hright]

/-- Witness for C6 (amended) on a wild-card-free playoff dataset. -/
theorem c6_velocity_equiv_witness :
    calculate_avg_velocity_playoff (fun _ _ => Except.ok [⟨1, "D", "FF", some 90, none, 1⟩]) 1 2016 =
      (fill_velocity (fun _ _ => Except.ok [⟨1, "D", "FF", some 90, none, 1⟩])
        (fun _ _ => Except.ok []) none (some 1) 2016 true).1 :=
  c6_velocity_equiv_amended _ _ (fun _ _ => Except.ok []) 1 2016
    [⟨1, "D", "FF", some 90, none, 1⟩] (by norm_num) rfl rfl (by decide) (by decide)

/-- Sums of pointwise sums of two maps split. -/
theorem sum_map_add_nat (ts : List String) (f g : String → ℕ) :
    (ts.map (fun t => f t + g t)).sum = (ts.map f).sum + (ts.map g).sum := by
  induction ts with
  | nil => simp
  | cons a ts ih =>
    simp only [List.map_cons, List.sum_cons, ih]
    omega

/-- An indicator summed over a list not containing the point is 0. -/
theorem sum_indicator_zero (x : String) (ts : List String) (hx : x ∉ ts) :
    (ts.map (fun t => if x = t then (1 : ℕ) else 0)).sum = 0 := by
  induction ts with
  | nil => simp
  | cons a ts ih =>
    simp only [List.map_cons, List.sum_cons]
    have hxa : x ≠ a := fun h => hx (h ▸ List.mem_cons_self a ts)
    rw [if_neg hxa, ih (fun h => hx (List.mem_cons_of_mem a h))]

/-- An indicator summed over a duplicate-free list is at most 1. -/
theorem sum_indicator_le_one (x : String) (ts : List String) (h : ts.Nodup) :
    (ts.map (fun t => if x = t then (1 : ℕ) else 0)).sum ≤ 1 := by
  induction ts with
  | nil => simp
  | cons a ts ih =>
    simp only [List.map_cons, List.sum_cons]
    rcases List.nodup_cons.mp h with ⟨ha, ht⟩
    by_cases hxa : x = a
    · subst hxa
      rw [if_pos rfl, sum_indicator_zero x ts ha]
    · rw [if_neg hxa]
      simpa using ih ht

/-- The per-pitch-type row counts over a duplicate-free list of type
codes sum to at most the number of rows (each row matches at most one
code). -/
theorem counts_sum_le_length (ts : List String) (h : ts.Nodup) (l : List Ev) :
    (ts.map (fun t => (l.filter (fun e => e.pitch_type = t)).length)).sum ≤ l.length := by
  induction l with
  | nil => simp
  | cons e l ih =>
    have hstep : ∀ t : String,
        ((e :: l).filter (fun e' => e'.pitch_type = t)).length =
          (if e.pitch_type = t then 1 else 0) +
            (l.filter (fun e' => e'.pitch_type = t)).length := by
      intro t
      rw [List.filter_cons]
      by_cases hpt : e.pitch_type = t
      · rw [if_pos (by simpa using hpt), if_pos hpt]
        simp [Nat.add_comm]
      · rw [if_neg (by simpa using hpt), if_neg hpt]
        simp
    calc (ts.map (fun t => ((e :: l).filter (fun e' => e'.pitch_type = t)).length)).sum
        = (ts.map (fun t => (if e.pitch_type = t then 1 else 0) +
            (l.filter (fun e' => e'.pitch_type = t)).length)).sum := by
          exact congrArg List.sum (List.map_congr_left (fun t _ => hstep t))
      _ = (ts.map (fun t => if e.pitch_type = t then 1 else 0)).sum +
          (ts.map (fun t => (l.filter (fun e' => e'.pitch_type = t)).length)).sum :=
          sum_map_add_nat ts _ _
      _ ≤ 1 + l.length := Nat.add_le_add (sum_indicator_le_one _ ts h) ih
      _ = (e :: l).length := by
          simp [Nat.add_comm]

/-- A constant factor pulls out of a mapped sum. -/
theorem sum_map_mul_right_q (ts : List String) (f : String → ℚ) (c : ℚ) :
    (ts.map (fun t => f t * c)).sum = (ts.map f).sum * c := by
  induction ts with
  | nil => simp
  | cons a ts ih =>
    simp only [List.map_cons, List.sum_cons, ih, add_mul]

/-- A mapped sum of casts is the cast of the mapped sum. -/
theorem sum_map_natCast_q (ts : List String) (f : String → ℕ) :
    (ts.map (fun t => ((f t : ℕ) : ℚ))).sum = (((ts.map f).sum : ℕ) : ℚ) := by
  induction ts with
  | nil => simp
  | cons a ts ih =>
    simp only [List.map_cons, List.sum_cons, ih]
    push_cast
    ring

/-- The unrounded pitch-type percentages over duplicate-free codes sum
to at most 100. -/
theorem pct_sum_le_100 (ts : List String) (h : ts.Nodup) (l : List Ev) (hl : l ≠ []) :
    (ts.map (fun t => ((l.filter (fun e => e.pitch_type = t)).length : ℚ) /
        (l.length : ℚ) * 100)).sum ≤ 100 := by
  have hT : (0 : ℚ) < (l.length : ℚ) := by
    exact_mod_cast List.length_pos.mpr hl
  have hstep : ∀ t : String,
      ((l.filter (fun e => e.pitch_type = t)).length : ℚ) / (l.length : ℚ) * 100 =
        ((l.filter (fun e => e.pitch_type = t)).length : ℚ) * (100 / (l.length : ℚ)) := by
    intro t
    field_simp
  rw [congrArg List.sum (List.map_congr_left (fun t _ => hstep t)),
    sum_map_mul_right_q, sum_map_natCast_q]
  have hS : ((((ts.map (fun t => (l.filter (fun e => e.pitch_type = t)).length)).sum : ℕ)) : ℚ)
      ≤ (l.length : ℚ) := by
    exact_mod_cast counts_sum_le_length ts h l
  calc ((((ts.map (fun t => (l.filter (fun e => e.pitch_type = t)).length)).sum : ℕ)) : ℚ) *
        (100 / (l.length : ℚ))
      ≤ (l.length : ℚ) * (100 / (l.length : ℚ)) := by
        apply mul_le_mul_of_nonneg_right hS
        positivity
    _ = 100 := by
        field_simp

/-- C5 as amended: with ≥1 regular-season tracking row (season ≥ 2015,
fetch succeeding), `calculate_pitch_mix` defines all six pitch-type
percentages — `round2 (count/total·100)` when the type occurs, an
explicit 0.0 otherwise — and the six *unrounded* percentages sum to at
most 100. (The returned rounded values can exceed 100 by under 0.03;
see the counterexample.) -/
theorem c5_pitch_mix_amended (fetch : Fetch) (pid season : ℤ) (data : List Ev)
    (hs : 2015 ≤ season) (hf : fetch pid season = Except.ok data)
    (hreg : data.filter (fun e => e.game_type = "R") ≠ []) :
    calculate_pitch_mix fetch pid season =
      some (pitch_types.map (fun t =>
        (t, if 0 < ((data.filter (fun e => e.game_type = "R")).filter
                (fun e => e.pitch_type = t)).length then
              round2 ((((data.filter (fun e => e.game_type = "R")).filter
                  (fun e => e.pitch_type = t)).length : ℚ) /
                (((data.filter (fun e => e.game_type = "R")).length : ℕ) : ℚ) * 100)
            else 0))) ∧
    (pitch_types.map (fun t =>
        (((data.filter (fun e => e.game_type = "R")).filter
            (fun e => e.pitch_type = t)).length : ℚ) /
          (((data.filter (fun e => e.game_type = "R")).length : ℕ) : ℚ) * 100)).sum ≤ 100 := by
  constructor
  · have hns : ¬ season < 2015 := by omega
    have hdata : ¬ data.isEmpty := by
      intro hd
      rw [List.isEmpty_iff.mp hd] at hreg
      exact hreg rfl
    have hpos : 0 < (data.filter (fun e => e.game_type = "R")).length :=
      List.length_pos.mpr hreg
    unfold calculate_pitch_mix
    rw [if_neg hns, hf]
    dsimp only
    rw [if_neg hdata, if_neg (by simpa [List.isEmpty_iff] using hreg),
      if_neg (by omega)]
  · exact pct_sum_le_100 pitch_types (by decide) _ hreg

/-- C5 counterexample: the claim also asserts the six *returned*
(rounded) percentages sum to at most 100. On seven regular-season rows
with pitch types splitting 2/1/1/1/1/1, the returned values are 28.57
and five times 14.29, summing to 100.02 > 100 — rounding can push the
returned sum above 100. -/
theorem c5_pitch_mix_sum_counterexample :
    calculate_pitch_mix (fun _ _ => Except.ok mix7) 1 2016 =
      some [("FF", 2857/100), ("SI", 1429/100), ("SL", 1429/100),
            ("CU", 1429/100), ("CH", 1429/100), ("FC", 1429/100)] ∧
    (((calculate_pitch_mix (fun _ _ => Except.ok mix7) 1 2016).getD []).map
        Prod.snd).sum = 10002/100 ∧
    ¬ ((10002 : ℚ)/100 ≤ 100) := by
  have hmix : calculate_pitch_mix (fun _ _ => Except.ok mix7) 1 2016 =
      some [("FF", 2857/100), ("SI", 1429/100), ("SL", 1429/100),
            ("CU", 1429/100), ("CH", 1429/100), ("FC", 1429/100)] := by
    simp +decide [calculate_pitch_mix, mix7, pitch_types, List.filter_cons]
    norm_num [round2, roundHalfEven, Int.floor_eq_iff]
  refine ⟨hmix, ?_, by norm_num⟩
  rw [hmix]
  norm_num

/-- Witness for C5 (amended) on the same seven-row fixture: all six
percentages defined and the unrounded percentages summing to ≤ 100. -/
theorem c5_pitch_mix_witness :
    calculate_pitch_mix (fun _ _ => Except.ok mix7) 1 2016 =
      some (pitch_types.map (fun t =>
        (t, if 0 < ((mix7.filter (fun e => e.game_type = "R")).filter
                (fun e => e.pitch_type = t)).length then
              round2 ((((mix7.filter (fun e => e.game_type = "R")).filter
                  (fun e => e.pitch_type = t)).length : ℚ) /
                (((mix7.filter (fun e => e.game_type = "R")).length : ℕ) : ℚ) * 100)
            else 0))) ∧
    (pitch_types.map (fun t =>
        (((mix7.filter (fun e => e.game_type = "R")).filter
            (fun e => e.pitch_type = t)).length : ℚ) /
          (((mix7.filter (fun e => e.game_type = "R")).length : ℕ) : ℚ) * 100)).sum ≤ 100 :=
  c5_pitch_mix_amended (fun _ _ => Except.ok mix7) 1 2016 mix7
    (by norm_num) rfl (by decide)

/-- `get_or_compute` reuses a non-missing cell without invoking the
calculator. -/
theorem get_or_compute_reuse (row : Row) (col : String) (f : Unit → Option ℚ)
    (h : (row col).isSome) : get_or_compute row col f = (row col, 0) := by
  obtain ⟨v, hv⟩ := Option.isSome_iff_exists.mp h
  simp [get_or_compute, hv]

/-- On a fully populated family, `familyCells` performs zero calculator
invocations and reproduces the stored values. -/
theorem familyCells_populated (row : Row) (calcFn : ℤ → Option ℚ) :
    ∀ ps : List (String × ℤ), (∀ p ∈ ps, (row p.1).isSome) →
      familyCells row calcFn ps = (ps.map (fun p => (p.1, row p.1)), 0) := by
  intro ps
  induction ps with
  | nil => intro _; rfl
  | cons p rest ih =>
    intro h
    obtain ⟨c, s⟩ := p
    simp only [familyCells]
    rw [get_or_compute_reuse row c _ (h (c, s) (List.mem_cons_self _ _)),
      ih (fun q hq => h q (List.mem_cons_of_mem _ hq))]
    simp

/-- On a fully populated family, `familyCellsE` performs zero
calculator invocations and reproduces the stored values. -/
theorem familyCellsE_populated (row : Row) (calcFn : ℤ → Except String (Option ℚ)) :
    ∀ ps : List (String × ℤ), (∀ p ∈ ps, (row p.1).isSome) →
      familyCellsE row calcFn ps = .ok (ps.map (fun p => (p.1, row p.1)), 0) := by
  intro ps
  induction ps with
  | nil => intro _; rfl
  | cons p rest ih =>
    intro h
    obtain ⟨c, s⟩ := p
    obtain ⟨v, hv⟩ := Option.isSome_iff_exists.mp (h (c, s) (List.mem_cons_self _ _))
    simp only [familyCellsE, hv]
    rw [ih (fun q hq => h q (List.mem_cons_of_mem _ hq))]
    simp only [hv.symm]
    rfl

/-- `get_pitch_mix_value` reuses a non-missing cell. -/
theorem get_pitch_mix_value_reuse (row : Row) (mix : Option (List (String × ℚ)))
    (t p : String) (h : (row (mixColName t p)).isSome) :
    get_pitch_mix_value row mix t p = row (mixColName t p) := by
  obtain ⟨v, hv⟩ := Option.isSome_iff_exists.mp h
  simp [get_pitch_mix_value, hv]

/-- On fully populated pitch-mix cells, `mixCells` reproduces the
stored values (the mix dicts are never read). -/
theorem mixCells_populated (row : Row)
    (mixes : List (String × Option (List (String × ℚ))))
    (h : ∀ t ∈ pitch_types, ∀ p ∈ periods, (row (mixColName t p.1)).isSome) :
    mixCells row mixes =
      (pitch_types.map (fun t => periods.map (fun p =>
        (mixColName t p.1, row (mixColName t p.1))))).flatten := by
  unfold mixCells
  congr 1
  apply List.map_congr_left
  intro t ht
  apply List.map_congr_left
  intro p hp
  rw [get_pitch_mix_value_reuse row _ t p.1 (h t ht p hp)]

/-- Merging updates that all restate the stored values leaves the row
unchanged. -/
theorem applyUpdates_fixed (row : Row) :
    ∀ ups : List (String × Option ℚ), (∀ pr ∈ ups, pr.2 = row pr.1) →
      ∀ c, applyUpdates row ups c = row c := by
  intro ups
  induction ups with
  | nil => intro _ c; rfl
  | cons pr rest ih =>
    intro h c
    obtain ⟨a, b⟩ := pr
    by_cases hac : a = c
    · subst hac
      have hb : b = row a := h (a, b) (List.mem_cons_self _ _)
      simp [applyUpdates, List.lookup, hb]
    · have hrest := ih (fun q hq => h q (List.mem_cons_of_mem _ hq)) c
      simp only [applyUpdates, List.lookup] at hrest ⊢
      rw [beq_eq_false_iff_ne.mpr (fun hca => hac hca.symm)]
      exact hrest

/-- C3 counterexample: the claim promises ZERO calculator invocations
on a rerun over a fully populated row. On a row with every metric cell
populated, `compute_averages` still performs 8 calculator invocations
— `calculate_pitch_mix` is called unconditionally for all eight
periods before the per-cell reuse check. -/
theorem c3_rerun_counterexample :
    (compute_averages none (fun _ _ => Except.ok []) 1 none 2020 (fun _ => some 1)).map
        Prod.snd = Except.ok 8 ∧ (8 : ℕ) ≠ 0 :=
  ⟨rfl, by decide⟩

/-- C3 as amended: on a fully populated row, a rerun of
`compute_averages` performs exactly 8 calculator invocations (the
eight unconditional `calculate_pitch_mix` calls; all 64
`get_or_compute` cells and all 48 pitch-mix cells are reused) and
merging its returned assignments leaves every cell of the row
unchanged. -/
theorem c3_rerun_amended (pitching_reg : Option (List RegRow)) (fetch : Fetch)
    (pid : ℤ) (lid : Option String) (injury_year : ℤ) (row : Row)
    (h : ∀ c ∈ allMetricColNames, (row c).isSome) :
    ∃ ups, compute_averages pitching_reg fetch pid lid injury_year row =
        .ok (ups, 8) ∧ ∀ c, applyUpdates row ups c = row c := by
  have hpp : ∀ q ∈ avgPitchPlayoffCols injury_year, (row q.1).isSome := by
    intro q hq
    fin_cases hq <;> (dsimp only; exact h _ (by decide))
  have hstd : ∀ b ∈ (["avg_pitches_regular_", "avg_spin_rate_", "avg_velocity_",
      "avg_velocity_playoff_", "gs_", "sv_", "relief_app_"] : List String),
      ∀ q ∈ stdCols b injury_year, (row q.1).isSome := by
    intro b hb q hq
    obtain ⟨p, hp, rfl⟩ := List.mem_map.mp hq
    dsimp only
    fin_cases hb <;> fin_cases hp <;> (dsimp only; exact h _ (by decide))
  have hmixcols : ∀ t ∈ pitch_types, ∀ p ∈ periods, (row (mixColName t p.1)).isSome := by
    intro t ht p hp
    fin_cases ht <;> fin_cases hp <;> (dsimp only; exact h _ (by decide))
  refine ⟨(avgPitchPlayoffCols injury_year).map (fun p => (p.1, row p.1)) ++
      (stdCols "avg_pitches_regular_" injury_year).map (fun p => (p.1, row p.1)) ++
      (stdCols "avg_spin_rate_" injury_year).map (fun p => (p.1, row p.1)) ++
      (stdCols "avg_velocity_" injury_year).map (fun p => (p.1, row p.1)) ++
      (stdCols "avg_velocity_playoff_" injury_year).map (fun p => (p.1, row p.1)) ++
      (stdCols "gs_" injury_year).map (fun p => (p.1, row p.1)) ++
      (stdCols "sv_" injury_year).map (fun p => (p.1, row p.1)) ++
      (stdCols "relief_app_" injury_year).map (fun p => (p.1, row p.1)) ++
      (pitch_types.map (fun t => periods.map (fun p =>
        (mixColName t p.1, row (mixColName t p.1))))).flatten, ?_, ?_⟩
  · unfold compute_averages
    rw [familyCells_populated row _ _ hpp,
      familyCellsE_populated row _ _ (hstd "avg_pitches_regular_" (by decide)),
      familyCells_populated row _ _ (hstd "avg_spin_rate_" (by decide)),
      familyCells_populated row _ _ (hstd "avg_velocity_" (by decide)),
      familyCells_populated row _ _ (hstd "avg_velocity_playoff_" (by decide)),
      familyCells_populated row _ _ (hstd "gs_" (by decide)),
      familyCells_populated row _ _ (hstd "sv_" (by decide)),
      familyCells_populated row _ _ (hstd "relief_app_" (by decide))]
    dsimp only
    rw [mixCells_populated row _ hmixcols]
    rfl
  · apply applyUpdates_fixed
    intro pr hpr
    simp only [List.mem_append] at hpr
    rcases hpr with ((((((((hm | hm) | hm) | hm) | hm) | hm) | hm) | hm) | hm)
    · obtain ⟨p, hp, rfl⟩ := List.mem_map.mp hm
      rfl
    · obtain ⟨p, hp, rfl⟩ := List.mem_map.mp hm
      rfl
    · obtain ⟨p, hp, rfl⟩ := List.mem_map.mp hm
      rfl
    · obtain ⟨p, hp, rfl⟩ := List.mem_map.mp hm
      rfl
    · obtain ⟨p, hp, rfl⟩ := List.mem_map.mp hm
      rfl
    · obtain ⟨p, hp, rfl⟩ := List.mem_map.mp hm
      rfl
    · obtain ⟨p, hp, rfl⟩ := List.mem_map.mp hm
      rfl
    · obtain ⟨p, hp, rfl⟩ := List.mem_map.mp hm
      rfl
    · rw [List.mem_flatten] at hm
      obtain ⟨lin, hlin, hprin⟩ := hm
      obtain ⟨t, ht, rfl⟩ := List.mem_map.mp hlin
      obtain ⟨p, hp, rfl⟩ := List.mem_map.mp hprin
      rfl

/-- Witness for C3 (amended) on a concrete fully populated row. -/
theorem c3_rerun_witness :
    ∃ ups, compute_averages none (fun _ _ => Except.ok []) 1 none 2020 (fun _ => some 1) =
        .ok (ups, 8) ∧ ∀ c, applyUpdates (fun _ => some 1) ups c = some 1 :=
  c3_rerun_amended none (fun _ _ => Except.ok []) 1 none 2020 (fun _ => some 1)
    (fun _ _ => rfl)
